import Mathlib

/-!
Verification of the tipyconv AppVar codec (src/tipyconv.h).

Buffers are modelled as `List Nat`, one entry per byte (values 0..255);
machine integers are `Nat`/`Int` with explicit reductions modulo 2^8, 2^16
and 2^32 where the C code uses `u8`, `u16` and `u32` arithmetic.  The C
`char` type on the build target (x86-64 Linux, plain `cc`, no
`-funsigned-char`) is signed, which the checksum model reflects.
Out-of-bounds reads in the parser (undefined behaviour in C, documented as
"May segfault" in the header) are made explicit: every memory access is
bounds-checked and an out-of-bounds access yields the distinguished
`ParseOut.oob` outcome.
-/

namespace Tipyconv

/-- Little-endian byte pair of a 16-bit word: C macro
`BSWORD(w) = {(u8)w, (u8)(w >> 8)}`. -/
def BSWORD (w : Nat) : List Nat := [w % 256, w / 256 % 256]

/-- 16-bit wrapping subtraction (`u16` arithmetic), for `b ≤ 65536`. -/
def sub16 (a b : Nat) : Nat := (a + 65536 - b) % 65536

/-- C `_ti_pyfile_get_word`: reads `(u8)data[i] | (u8)data[i+1] << 8`
(little-endian `u16`), with the pointer offset modelled as a list index. -/
def _ti_pyfile_get_word (data : List Nat) (i : Nat) : Nat :=
  data.getD i 0 % 256 + 256 * (data.getD (i + 1) 0 % 256)

/-- Value of a byte read through a signed `char` lvalue, as the C integer
promotion produces it: bytes below 0x80 keep their value, bytes 0x80..0xFF
are sign-extended to negative values. -/
def signedByte (b : Nat) : Int :=
  if b % 256 < 128 then (b % 256 : Int) else (b % 256 : Int) - 256

/-- Sum of `signedByte` over indices `i, i+1, ..., i+n-1` of `data`
(the loop body `sum += data[i]` of `_ti_pyfile_get_checksum`). -/
def sumRange (data : List Nat) (i : Nat) : Nat → Int
  | 0 => 0
  | n + 1 => signedByte (data.getD i 0) + sumRange data (i + 1) n

/-- C `_ti_pyfile_get_checksum(data, len)`: a `u32` accumulator sums the
(signed `char`) bytes `data[0x37], ..., data[len-1]` and the low 16 bits
are returned; the wrapping `u32` accumulation equals the integer sum
reduced modulo 2^32, then `& 0xffff` reduces modulo 2^16. -/
def _ti_pyfile_get_checksum (data : List Nat) (len : Nat) : Nat :=
  ((sumRange data 0x37 (len - 0x37) % (4294967296 : Int)) % (65536 : Int)).toNat

/-- The `Ti_PyFile` struct.  The C string pointers `src`/`file_name` are
modelled as `Option (List Nat)` (`none` = NULL); the pointees are the byte
lists, whose lengths the constructors tie to `src_len`/`file_name_len`.
The embedded arrays `file_info[42]` and `var_name[8]` are byte lists of
length 42 and 8. -/
structure Ti_PyFile where
  src : Option (List Nat)
  file_name : Option (List Nat)
  src_len : Nat
  file_name_len : Nat
  file_info : List Nat
  var_name : List Nat
deriving DecidableEq, Repr

/-- C `ti_pyfile_new_invalid`: the all-zero struct `(Ti_PyFile){0}`
(NULL pointers, zero lengths, zeroed arrays). -/
def ti_pyfile_new_invalid : Ti_PyFile :=
  ⟨none, none, 0, 0, List.replicate 42 0, List.replicate 8 0⟩

/-- The 11-byte magic signature `FILE_HEADER`. -/
def FILE_HEADER : List Nat :=
  [0x2a, 0x2a, 0x54, 0x49, 0x38, 0x33, 0x46, 0x2a, 0x1a, 0x0a, 0x00]

/-- C `strncpy(dst, s, n)` where `s` is a NUL-terminated string modelled as
its (NUL-free) content bytes: copies up to `n` bytes of `s`, stopping at
the terminator, and zero-fills the remainder of the `n`-byte destination. -/
def strncpyStr (s : List Nat) (n : Nat) : List Nat :=
  let t := (s.takeWhile fun b => b ≠ 0).take n
  t ++ List.replicate (n - t.length) 0

/-- C `ti_pyfile_new_with_metadata_full`: NULL `src` yields the invalid
sentinel; otherwise the source/filename strings are copied into fresh
zero-initialised buffers, `var_name` is `strncpy`-truncated to 8 bytes
(default `"PYFILE"`), and `file_info` is `strncpy`-truncated to 42 bytes
(left all-zero when NULL, since the struct is zero-initialised). -/
def ti_pyfile_new_with_metadata_full (src : Option (List Nat)) (srcLen : Nat)
    (fileName : Option (List Nat)) (fileNameLen : Nat)
    (fileInfo : Option (List Nat)) (varName : Option (List Nat)) : Ti_PyFile :=
  match src with
  | none => ti_pyfile_new_invalid
  | some s =>
    { src := some (strncpyStr s srcLen)
      file_name := (fileName.map fun fn => strncpyStr fn fileNameLen)
      src_len := srcLen
      file_name_len := fileNameLen
      file_info :=
        match fileInfo with
        | some fi => strncpyStr fi 42
        | none => List.replicate 42 0
      var_name :=
        match varName with
        | some v => strncpyStr v 8
        | none => strncpyStr [0x50, 0x59, 0x46, 0x49, 0x4c, 0x45] 8 }

/-- C `ti_pyfile_valid`: `!memcmp(f, &(Ti_PyFile){0}, sizeof(Ti_PyFile))`,
i.e. true exactly when the struct is byte-for-byte the all-zero struct. -/
def ti_pyfile_valid (f : Ti_PyFile) : Bool :=
  decide (f = ti_pyfile_new_invalid)

/-- C `_ti_pyfile_dump_payload`: `"PYCD"`, then (when a filename pointer is
present) the length byte and the SOH marker `0x01` followed by the
filename bytes, then a NUL terminator, then the source bytes. -/
def _ti_pyfile_dump_payload (f : Ti_PyFile) : List Nat :=
  [0x50, 0x59, 0x43, 0x44] ++
    (match f.file_name with
     | some fn => [f.file_name_len % 256, 0x01] ++ fn
     | none => []) ++
    [0x00] ++ f.src.getD []

/-- The extra term of the data-size computation: `0` with no filename,
`file_name_len + 2` when a filename pointer is present (the C
`if (f->file_name) dsize += f->file_name_len + 2`). -/
def fnameExtra (f : Ti_PyFile) : Nat :=
  match f.file_name with
  | some _ => f.file_name_len + 2
  | none => 0

/-- The `u16 dsize` computed by `ti_pyfile_dump`:
`24 + src_len`, plus `file_name_len + 2` when a filename is present. -/
def dsizeVal (f : Ti_PyFile) : Nat :=
  (24 + f.src_len + fnameExtra f) % 65536

/-- The `u16 psize = (u16)payload.len + 2` computed by `ti_pyfile_dump`. -/
def psizeVal (f : Ti_PyFile) : Nat :=
  ((_ti_pyfile_dump_payload f).length % 65536 + 2) % 65536

/-- Everything `ti_pyfile_dump` appends before the trailing checksum:
header, file_info, dsize, the fixed tag `0x0D 0x00`, psize, the variable
type id `0x15`, the 8-byte var name, 2 padding bytes, psize again,
`psize - 2`, and the payload. -/
def dumpBody (f : Ti_PyFile) : List Nat :=
  FILE_HEADER ++ f.file_info ++ BSWORD (dsizeVal f) ++ [0x0d, 0x00] ++
    BSWORD (psizeVal f) ++ [0x15] ++ f.var_name ++ [0x00, 0x00] ++
    BSWORD (psizeVal f) ++ BSWORD (sub16 (psizeVal f) 2) ++
    _ti_pyfile_dump_payload f

/-- C `ti_pyfile_dump`: the body followed by the checksum of the body
(computed over the buffer as assembled so far, i.e. ending just before the
checksum's own two bytes). -/
def ti_pyfile_dump (f : Ti_PyFile) : List Nat :=
  dumpBody f ++ BSWORD (_ti_pyfile_get_checksum (dumpBody f) (dumpBody f).length)

/-- The `Ti_ParseResult` enum. -/
inductive Ti_ParseResult where
  | ok
  | error
  | invalidFormat
  | checksumIncorrect
deriving DecidableEq, Repr

/-- Outcome of a parse: either a returned `(Ti_ParseResult, Ti_PyFile)`
pair (`*pres` and the return value), or an out-of-bounds memory access
(undefined behaviour in the C). -/
inductive ParseOut where
  | oob
  | ret (res : Ti_ParseResult) (f : Ti_PyFile)
deriving DecidableEq, Repr

/-- Bounds-checked byte read `(u8)data[i]`. -/
def readByte (data : List Nat) (i : Nat) : Option Nat :=
  (data.get? i).map (· % 256)

/-- Bounds-checked `_ti_pyfile_get_word(&data[i])` (reads two bytes). -/
def readWord (data : List Nat) (i : Nat) : Option Nat :=
  if i + 1 < data.length then some (_ti_pyfile_get_word data i) else none

/-- Bounds-checked C `strncpy(dst, &data[start], n)` into a zeroed
`n`-byte destination: copies bytes until a NUL is reached (zero-filling
the rest) or `n` bytes are copied; `none` when a read goes out of
bounds. -/
def strncpyFrom (data : List Nat) (start : Nat) : Nat → Option (List Nat)
  | 0 => some []
  | n + 1 =>
    match readByte data start with
    | none => none
    | some b =>
      if b = 0 then some (List.replicate (n + 1) 0)
      else (strncpyFrom data (start + 1) n).map fun rest => b :: rest

/-- Tail of `ti_pyfile_parse` after the filename branch: copy the source
with `strncpy`, recompute the checksum over `data[0x37 .. len-2)`, read the
stored checksum word at `src_start + src_len`, and either report
`TI_CHECKSUM_INCORRECT` with the invalid sentinel (the parsed buffers are
freed) or return the populated record with `TI_PARSE_OK`. -/
def parseTail (data : List Nat) (fname : Option (List Nat)) (fnameLen : Nat)
    (finfo vname : List Nat) (srcStart srcLen : Nat) : ParseOut :=
  match strncpyFrom data srcStart srcLen with
  | none => ParseOut.oob
  | some src =>
    if data.length < 2 then ParseOut.oob
    else
      match readWord data (srcStart + srcLen) with
      | none => ParseOut.oob
      | some fileChecksum =>
        if _ti_pyfile_get_checksum data (data.length - 2) ≠ fileChecksum then
          ParseOut.ret Ti_ParseResult.checksumIncorrect ti_pyfile_new_invalid
        else
          ParseOut.ret Ti_ParseResult.ok
            ⟨some src, fname, srcLen, fnameLen, finfo, vname⟩

/-- Body of `ti_pyfile_parse` for a non-NULL buffer: the header check is
`memcmp(&data[0], FILE_HEADER, 1)` (a single byte); then `file_info` and
`var_name` are `strncpy`-copied from 0x0B and 0x3C, the `u16` at 0x48 is
read and 5 subtracted, and the byte at 0x4E selects the filename branch
(which copies the filename from 0x50, moves the source start to
`0x50 + file_name_len` and subtracts `1 + file_name_len` more). -/
def parseBuf (data : List Nat) : ParseOut :=
  match readByte data 0 with
  | none => ParseOut.oob
  | some b0 =>
    if b0 ≠ 0x2a then ParseOut.ret Ti_ParseResult.invalidFormat ti_pyfile_new_invalid
    else
      match strncpyFrom data 0xB 42 with
      | none => ParseOut.oob
      | some finfo =>
        match strncpyFrom data 0x3C 8 with
        | none => ParseOut.oob
        | some vname =>
          match readWord data 0x48 with
          | none => ParseOut.oob
          | some w =>
            match readByte data 0x4E with
            | none => ParseOut.oob
            | some b4E =>
              if b4E ≠ 0 then
                match strncpyFrom data 0x50 b4E with
                | none => ParseOut.oob
                | some fname =>
                  parseTail data (some fname) b4E finfo vname (0x50 + b4E)
                    (sub16 (sub16 w 5) (1 + b4E))
              else
                parseTail data none 0 finfo vname 0x4F (sub16 w 5)

/-- C `ti_pyfile_parse`: NULL data reports `TI_PARSE_ERROR` with the
invalid sentinel; otherwise the buffer is parsed. -/
def ti_pyfile_parse : Option (List Nat) → ParseOut
  | none => ParseOut.ret Ti_ParseResult.error ti_pyfile_new_invalid
  | some data => parseBuf data

/-- The bytes of `"print(1)"`. -/
def printSrc : List Nat := [112, 114, 105, 110, 116, 40, 49, 41]

/-- The bytes of `"DEMO"` zero-padded to the 8-byte `var_name` field. -/
def demoVarName : List Nat := [68, 69, 77, 79, 0, 0, 0, 0]

/-- The concrete scenario record: source `"print(1)"`, var name `"DEMO"`,
zeroed comment, no filename. -/
def demoFile : Ti_PyFile :=
  ⟨some printSrc, none, 8, 0, List.replicate 42 0, demoVarName⟩

/-- The buffer `ti_pyfile_dump` produces for the concrete scenario. -/
def demoBuf : List Nat := ti_pyfile_dump demoFile

/-- `demoBuf` with byte 1 of the signature zeroed: its first 11 bytes no
longer match `FILE_HEADER`. -/
def hdrCorrupt : List Nat := demoBuf.set 1 0

/-- `demoBuf` with its final (checksum) byte altered. -/
def ckCorrupt : List Nat := demoBuf.set 88 ((demoBuf.getD 88 0 + 1) % 256)

/-- The default `"PYFILE"` var name zero-padded to 8 bytes. -/
def pyVarName : List Nat := [80, 89, 70, 73, 76, 69, 0, 0]

/-- A record with source `"A"` and the one-byte filename `"B"`. -/
def fnFile : Ti_PyFile :=
  ⟨some [65], some [66], 1, 1, List.replicate 42 0, pyVarName⟩

/-- What `ti_pyfile_parse` actually returns for `ti_pyfile_dump fnFile`:
the source is the two bytes `[0, 0]` (the parser starts one byte early, at
the payload's NUL terminator, and `strncpy` then copies nothing). -/
def fnParsed : Ti_PyFile :=
  ⟨some [0, 0], some [66], 2, 1, List.replicate 42 0, pyVarName⟩

/-- A 12-byte truncated buffer whose first byte matches the signature. -/
def buf12 : List Nat := 0x2a :: List.replicate 11 0

/-- The buffer of the C3 failing input: 0x37 zero bytes then the byte
0x80. -/
def c3buf : List Nat := List.replicate 0x37 0 ++ [0x80]

theorem getD_append_chunk (l1 l2 : List Nat) (i : Nat) (h : l1.length ≤ i) :
    (l1 ++ l2).getD i 0 = l2.getD (i - l1.length) 0 := by
  induction l1 generalizing i with
  | nil => simp
  | cons a t ih =>
    cases i with
    | zero => simp at h
    | succ n =>
      simp only [List.cons_append, List.getD_cons_succ, List.length_cons]
      rw [ih n (by simpa using h)]
      congr 1
      omega

theorem getD_append_lt (l1 l2 : List Nat) (i : Nat) (h : i < l1.length) :
    (l1 ++ l2).getD i 0 = l1.getD i 0 := by
  induction l1 generalizing i with
  | nil => simp at h
  | cons a t ih =>
    cases i with
    | zero => simp
    | succ n => simpa using ih n (by simpa using h)

theorem word_chunk2 (l1 l2 : List Nat) (i j : Nat) (hij : i = l1.length + j) :
    _ti_pyfile_get_word (l1 ++ l2) i = _ti_pyfile_get_word l2 j := by
  subst hij
  unfold _ti_pyfile_get_word
  rw [getD_append_chunk l1 l2 (l1.length + j) (by omega),
    getD_append_chunk l1 l2 (l1.length + j + 1) (by omega)]
  have e1 : l1.length + j - l1.length = j := by omega
  have e2 : l1.length + j + 1 - l1.length = j + 1 := by omega
  rw [e1, e2]

theorem word_left (l1 l2 : List Nat) (i : Nat) (h : i + 1 < l1.length) :
    _ti_pyfile_get_word (l1 ++ l2) i = _ti_pyfile_get_word l1 i := by
  unfold _ti_pyfile_get_word
  rw [getD_append_lt l1 l2 i (by omega), getD_append_lt l1 l2 (i + 1) h]

theorem word_BSWORD (w : Nat) (post : List Nat) (hw : w < 65536) :
    _ti_pyfile_get_word (BSWORD w ++ post) 0 = w := by
  unfold _ti_pyfile_get_word BSWORD
  simp only [List.cons_append, List.getD_cons_zero, List.getD_cons_succ]
  omega

theorem sumRange_congr (d1 d2 : List Nat) :
    ∀ n i, (∀ j, i ≤ j → j < i + n → d1.getD j 0 = d2.getD j 0) →
      sumRange d1 i n = sumRange d2 i n := by
  intro n
  induction n with
  | zero => intro i _; rfl
  | succ m ih =>
    intro i hag
    unfold sumRange
    rw [hag i (le_refl i) (by omega), ih (i + 1) (fun j hj1 hj2 => hag j (by omega) (by omega))]

theorem dumpBody_length (f : Ti_PyFile) :
    (dumpBody f).length =
      24 + f.file_info.length + f.var_name.length + (_ti_pyfile_dump_payload f).length := by
  simp [dumpBody, BSWORD, FILE_HEADER]
  omega

theorem dump_word (f : Ti_PyFile) (i : Nat) (h : i + 1 < (dumpBody f).length) :
    _ti_pyfile_get_word (ti_pyfile_dump f) i = _ti_pyfile_get_word (dumpBody f) i := by
  unfold ti_pyfile_dump
  exact word_left _ _ i h

theorem body_word_35 (f : Ti_PyFile) (h42 : f.file_info.length = 42) :
    _ti_pyfile_get_word (dumpBody f) 0x35 = dsizeVal f := by
  unfold dumpBody
  simp only [List.append_assoc]
  rw [word_chunk2 FILE_HEADER _ 0x35 42 (by decide)]
  rw [word_chunk2 f.file_info _ 42 0 (by omega)]
  exact word_BSWORD _ _ (by unfold dsizeVal; omega)

theorem body_word_39 (f : Ti_PyFile) (h42 : f.file_info.length = 42) :
    _ti_pyfile_get_word (dumpBody f) 0x39 = psizeVal f := by
  unfold dumpBody
  simp only [List.append_assoc]
  rw [word_chunk2 FILE_HEADER _ 0x39 46 (by decide)]
  rw [word_chunk2 f.file_info _ 46 4 (by omega)]
  rw [word_chunk2 (BSWORD (dsizeVal f)) _ 4 2 (by simp [BSWORD])]
  rw [word_chunk2 [0x0d, 0x00] _ 2 0 (by decide)]
  exact word_BSWORD _ _ (by unfold psizeVal; omega)

theorem body_word_46 (f : Ti_PyFile) (h42 : f.file_info.length = 42)
    (h8 : f.var_name.length = 8) :
    _ti_pyfile_get_word (dumpBody f) 0x46 = psizeVal f := by
  unfold dumpBody
  simp only [List.append_assoc]
  rw [word_chunk2 FILE_HEADER _ 0x46 59 (by decide)]
  rw [word_chunk2 f.file_info _ 59 17 (by omega)]
  rw [word_chunk2 (BSWORD (dsizeVal f)) _ 17 15 (by simp [BSWORD])]
  rw [word_chunk2 [0x0d, 0x00] _ 15 13 (by decide)]
  rw [word_chunk2 (BSWORD (psizeVal f)) _ 13 11 (by simp [BSWORD])]
  rw [word_chunk2 [0x15] _ 11 10 (by decide)]
  rw [word_chunk2 f.var_name _ 10 2 (by omega)]
  rw [word_chunk2 [0x00, 0x00] _ 2 0 (by decide)]
  exact word_BSWORD _ _ (by unfold psizeVal; omega)

theorem body_word_48 (f : Ti_PyFile) (h42 : f.file_info.length = 42)
    (h8 : f.var_name.length = 8) :
    _ti_pyfile_get_word (dumpBody f) 0x48 = sub16 (psizeVal f) 2 := by
  unfold dumpBody
  simp only [List.append_assoc]
  rw [word_chunk2 FILE_HEADER _ 0x48 61 (by decide)]
  rw [word_chunk2 f.file_info _ 61 19 (by omega)]
  rw [word_chunk2 (BSWORD (dsizeVal f)) _ 19 17 (by simp [BSWORD])]
  rw [word_chunk2 [0x0d, 0x00] _ 17 15 (by decide)]
  rw [word_chunk2 (BSWORD (psizeVal f)) _ 15 13 (by simp [BSWORD])]
  rw [word_chunk2 [0x15] _ 13 12 (by decide)]
  rw [word_chunk2 f.var_name _ 12 4 (by omega)]
  rw [word_chunk2 [0x00, 0x00] _ 4 2 (by decide)]
  rw [word_chunk2 (BSWORD (psizeVal f)) _ 2 0 (by simp [BSWORD])]
  exact word_BSWORD _ _ (by unfold sub16; omega)

theorem parseTail_ret {data : List Nat} {fname : Option (List Nat)} {fnameLen : Nat}
    {finfo vname : List Nat} {srcStart srcLen : Nat} {res : Ti_ParseResult} {f : Ti_PyFile}
    (h : parseTail data fname fnameLen finfo vname srcStart srcLen = ParseOut.ret res f) :
    res ≠ Ti_ParseResult.error ∧ (res ≠ Ti_ParseResult.ok → f = ti_pyfile_new_invalid) := by
  unfold parseTail at h
  split at h
  · exact ParseOut.noConfusion h
  · split at h
    · exact ParseOut.noConfusion h
    · split at h
      · exact ParseOut.noConfusion h
      · split at h
        · cases h
          exact ⟨by decide, fun _ => rfl⟩
        · cases h
          exact ⟨by decide, fun hk => absurd rfl hk⟩

theorem parseBuf_ret {data : List Nat} {res : Ti_ParseResult} {f : Ti_PyFile}
    (h : parseBuf data = ParseOut.ret res f) :
    res ≠ Ti_ParseResult.error ∧ (res ≠ Ti_ParseResult.ok → f = ti_pyfile_new_invalid) := by
  unfold parseBuf at h
  split at h
  · exact ParseOut.noConfusion h
  · split at h
    · cases h
      exact ⟨by decide, fun _ => rfl⟩
    · split at h
      · exact ParseOut.noConfusion h
      · split at h
        · exact ParseOut.noConfusion h
        · split at h
          · exact ParseOut.noConfusion h
          · split at h
            · exact ParseOut.noConfusion h
            · split at h
              · split at h
                · exact ParseOut.noConfusion h
                · exact parseTail_ret h
              · exact parseTail_ret h

/-- C1: the encode/decode round trip is broken for records carrying a
filename: parsing the dump of `fnFile` (source `"A"`, filename `"B"`)
succeeds with a passing checksum, yet the parsed source is the two bytes
`[0, 0]` instead of `"A"` — the parser starts the source at the payload's
NUL terminator (one byte early) and computes its length one too large, so
`strncpy` copies nothing. -/
theorem c1_roundtrip_filename_bug :
    ti_pyfile_parse (some (ti_pyfile_dump fnFile)) = ParseOut.ret Ti_ParseResult.ok fnParsed ∧
    fnParsed.src = some [0, 0] ∧ fnFile.src = some [65] ∧ fnParsed.src ≠ fnFile.src := by
  decide

/-- C2: the parser checks only the first byte of the signature
(`memcmp(&data[0], FILE_HEADER, 1)`): `hdrCorrupt` has byte 1 zeroed, so
its first 11 bytes differ from `FILE_HEADER`, yet parsing returns
`TI_PARSE_OK` with the fully parsed record instead of the
`TI_INVALID_FORMAT` error the claim requires. -/
theorem c2_header_check_single_byte :
    hdrCorrupt.take 11 ≠ FILE_HEADER ∧
    ti_pyfile_parse (some hdrCorrupt) = ParseOut.ret Ti_ParseResult.ok demoFile := by
  decide

/-- C3: the checksum sums bytes through a signed `char`, so the byte 0x80
at offset 0x37 contributes −128 rather than its unsigned value 128: the
checksum of `c3buf` with end index 0x38 is 0xFF80 = 65408, not the 128 the
claim's unsigned sum would give. -/
theorem c3_checksum_signed_char :
    _ti_pyfile_get_checksum c3buf 0x38 = 65408 ∧
    _ti_pyfile_get_checksum c3buf 0x38 ≠ 128 := by
  decide

/-- C4 counterexample: on a checksum mismatch (`ckCorrupt` is a valid dump
with its final checksum byte altered) the parser reports
`TI_CHECKSUM_INCORRECT` but returns the all-zero invalid sentinel — whose
`src` pointer is NULL — not a record with the parsed fields populated. -/
theorem c4_counterexample :
    ti_pyfile_parse (some ckCorrupt) =
      ParseOut.ret Ti_ParseResult.checksumIncorrect ti_pyfile_new_invalid ∧
    ti_pyfile_new_invalid.src = none := by
  decide

/-- C4 (amended): whenever parsing reports `TI_CHECKSUM_INCORRECT`, the
returned record is the all-zero invalid sentinel (the already-parsed
buffers are freed and discarded). -/
theorem c4_mismatch_returns_invalid (data : List Nat) (res : Ti_ParseResult) (f : Ti_PyFile)
    (h : ti_pyfile_parse (some data) = ParseOut.ret res f)
    (hres : res = Ti_ParseResult.checksumIncorrect) :
    f = ti_pyfile_new_invalid :=
  (parseBuf_ret h).2 (by rw [hres]; exact fun hk => Ti_ParseResult.noConfusion hk)

/-- C4 witness: the amended theorem applied to the concrete corrupted
buffer `ckCorrupt`. -/
theorem c4_mismatch_returns_invalid_witness : ti_pyfile_new_invalid = ti_pyfile_new_invalid :=
  c4_mismatch_returns_invalid ckCorrupt Ti_ParseResult.checksumIncorrect
    ti_pyfile_new_invalid (by decide) rfl

/-- C5 counterexample: encoding the concrete scenario record (source
`"print(1)"`, var name `"DEMO"`, zeroed comment, no filename) yields a
buffer of 89 bytes, not the 90 the claim states (the payload is
4 + 1 + 8 = 13 bytes, `"print(1)"` being 8 bytes long). -/
theorem c5_counterexample :
    (ti_pyfile_dump demoFile).length = 89 ∧ (ti_pyfile_dump demoFile).length ≠ 90 := by
  decide

/-- C5 (amended): the dump of the concrete scenario record starts with the
11-byte signature, is exactly 89 bytes long, and parsing that exact buffer
succeeds, reproducing source `"print(1)"` and var_name
`"DEMO"` followed by four zero bytes. -/
theorem c5_concrete_scenario :
    (ti_pyfile_dump demoFile).take 11 = FILE_HEADER ∧
    (ti_pyfile_dump demoFile).length = 89 ∧
    ti_pyfile_parse (some (ti_pyfile_dump demoFile)) =
      ParseOut.ret Ti_ParseResult.ok demoFile ∧
    demoFile.src = some printSrc ∧
    demoFile.var_name = demoVarName := by
  decide

/-- C6: for every record whose `file_info` array has its C length 42 and
whose data-size computation fits in 16 bits, the little-endian word encode
writes at offset 0x35 equals `24 + src_len`, plus `file_name_len + 2` when
a filename is present. -/
theorem c6_data_size_field (f : Ti_PyFile) (h42 : f.file_info.length = 42)
    (hfit : 24 + f.src_len + fnameExtra f < 65536) :
    _ti_pyfile_get_word (ti_pyfile_dump f) 0x35 = 24 + f.src_len + fnameExtra f := by
  rw [dump_word f 0x35 (by rw [dumpBody_length]; omega), body_word_35 f h42]
  unfold dsizeVal
  omega

/-- C6 witness: the theorem applied to the concrete record `fnFile`
(the word at 0x35 is 24 + 1 + 3 = 28). -/
theorem c6_data_size_field_witness :
    _ti_pyfile_get_word (ti_pyfile_dump fnFile) 0x35 = 24 + fnFile.src_len + fnameExtra fnFile :=
  c6_data_size_field fnFile (by decide) (by decide)

/-- C7: in every buffer encode produces (for a record with the C array
lengths and a payload whose outer size fits in 16 bits), the 16-bit word
at 0x46 repeats the word at 0x39 exactly, and the word at 0x48 is that
value minus 2. -/
theorem c7_payload_size_fields (f : Ti_PyFile) (h42 : f.file_info.length = 42)
    (h8 : f.var_name.length = 8)
    (hp : (_ti_pyfile_dump_payload f).length + 2 < 65536) :
    _ti_pyfile_get_word (ti_pyfile_dump f) 0x46 = _ti_pyfile_get_word (ti_pyfile_dump f) 0x39 ∧
    _ti_pyfile_get_word (ti_pyfile_dump f) 0x48 =
      _ti_pyfile_get_word (ti_pyfile_dump f) 0x39 - 2 := by
  have hb : (dumpBody f).length = 74 + (_ti_pyfile_dump_payload f).length := by
    rw [dumpBody_length, h42, h8]
  have h39 : _ti_pyfile_get_word (ti_pyfile_dump f) 0x39 = psizeVal f := by
    rw [dump_word f 0x39 (by omega), body_word_39 f h42]
  have h46 : _ti_pyfile_get_word (ti_pyfile_dump f) 0x46 = psizeVal f := by
    rw [dump_word f 0x46 (by omega), body_word_46 f h42 h8]
  have h48 : _ti_pyfile_get_word (ti_pyfile_dump f) 0x48 = sub16 (psizeVal f) 2 := by
    rw [dump_word f 0x48 (by omega), body_word_48 f h42 h8]
  have hps : psizeVal f = (_ti_pyfile_dump_payload f).length + 2 := by
    unfold psizeVal
    omega
  refine ⟨by rw [h46, h39], ?_⟩
  rw [h48, h39, hps]
  unfold sub16
  omega

/-- C7 witness: the theorem applied to the concrete record `fnFile`
(both outer size words are 11 and the inner size word is 9). -/
theorem c7_payload_size_fields_witness :
    _ti_pyfile_get_word (ti_pyfile_dump fnFile) 0x46 =
      _ti_pyfile_get_word (ti_pyfile_dump fnFile) 0x39 ∧
    _ti_pyfile_get_word (ti_pyfile_dump fnFile) 0x48 =
      _ti_pyfile_get_word (ti_pyfile_dump fnFile) 0x39 - 2 :=
  c7_payload_size_fields fnFile (by decide) (by decide) (by decide)

/-- C8 counterexample: the 12-byte truncated buffer `buf12` (first byte
matches the signature) is structurally deficient, yet the parser does not
return `TI_PARSE_ERROR`: it reads past the end of the buffer (the
`strncpy` of `var_name` from offset 0x3C). -/
theorem c8_counterexample :
    ti_pyfile_parse (some buf12) = ParseOut.oob ∧
    ti_pyfile_parse (some buf12) ≠ ParseOut.ret Ti_ParseResult.error ti_pyfile_new_invalid := by
  decide

/-- C8 (amended): `TI_PARSE_ERROR` is reported exactly for a NULL data
pointer; a non-NULL buffer never produces it — structurally deficient
buffers instead cause out-of-bounds reads (undefined behaviour, documented
as "May segfault"). -/
theorem c8_parse_error_only_for_null :
    ti_pyfile_parse none = ParseOut.ret Ti_ParseResult.error ti_pyfile_new_invalid ∧
    (∀ (data : List Nat) (res : Ti_ParseResult) (f : Ti_PyFile),
      ti_pyfile_parse (some data) = ParseOut.ret res f → res ≠ Ti_ParseResult.error) :=
  ⟨rfl, fun _ _ _ h => (parseBuf_ret h).1⟩

/-- C8 witness: the second conjunct applied to the successful parse of the
concrete buffer `demoBuf`. -/
theorem c8_parse_error_only_for_null_witness : Ti_ParseResult.ok ≠ Ti_ParseResult.error :=
  c8_parse_error_only_for_null.2 demoBuf Ti_ParseResult.ok demoFile (by decide)

/-- C9: the checksum is a function of the bytes at offsets 0x37 up to but
excluding `e` only — two buffers agreeing there (with `e` within both)
have equal checksums, so changing bytes below 0x37 or at or beyond `e`
never changes the result. -/
theorem c9_checksum_depends_only_on_range (buf1 buf2 : List Nat) (e : Nat)
    (h1 : e ≤ buf1.length) (h2 : e ≤ buf2.length)
    (hag : ∀ i, i < e → 0x37 ≤ i → buf1.getD i 0 = buf2.getD i 0) :
    _ti_pyfile_get_checksum buf1 e = _ti_pyfile_get_checksum buf2 e := by
  unfold _ti_pyfile_get_checksum
  rw [sumRange_congr buf1 buf2 (e - 0x37) 0x37 (fun j hj1 hj2 => hag j (by omega) hj1)]

/-- C9 witness: two concrete buffers differing everywhere below offset
0x37 but agreeing on `[0x37, 0x39)` have the same checksum. -/
theorem c9_checksum_depends_only_on_range_witness :
    _ti_pyfile_get_checksum (List.replicate 0x39 1) 0x39 =
      _ti_pyfile_get_checksum (List.replicate 0x37 2 ++ [1, 1]) 0x39 :=
  c9_checksum_depends_only_on_range (List.replicate 0x39 1)
    (List.replicate 0x37 2 ++ [1, 1]) 0x39 (by decide) (by decide) (by decide)

/-- C10: `ti_pyfile_valid` is true exactly on the all-zero invalid
sentinel (so it is false on every populated record, the opposite of the
"true if the file is valid" reading), and every error path of parsing and
of construction returns that sentinel. -/
theorem c10_valid_iff_zero_sentinel :
    (∀ f : Ti_PyFile, ti_pyfile_valid f = true ↔ f = ti_pyfile_new_invalid) ∧
    (∀ f : Ti_PyFile, f.src.isSome = true → ti_pyfile_valid f = false) ∧
    (∀ (srcLen fnameLen : Nat) (fname fileInfo varName : Option (List Nat)),
      ti_pyfile_new_with_metadata_full none srcLen fname fnameLen fileInfo varName =
        ti_pyfile_new_invalid) ∧
    ti_pyfile_parse none = ParseOut.ret Ti_ParseResult.error ti_pyfile_new_invalid ∧
    (∀ (data : List Nat) (res : Ti_ParseResult) (f : Ti_PyFile),
      ti_pyfile_parse (some data) = ParseOut.ret res f → res ≠ Ti_ParseResult.ok →
        f = ti_pyfile_new_invalid) := by
  refine ⟨fun f => ?_, fun f hf => ?_, fun _ _ _ _ _ => rfl, rfl,
    fun data res f h hne => (parseBuf_ret h).2 hne⟩
  · simp [ti_pyfile_valid]
  · simp only [ti_pyfile_valid, decide_eq_false_iff_not]
    intro he
    rw [he] at hf
    simp [ti_pyfile_new_invalid] at hf

/-- C10 witness: the sentinel itself is "valid", the populated concrete
record `demoFile` is not, and the error paths instantiated at a buffer
failing the header check return the sentinel. -/
theorem c10_valid_iff_zero_sentinel_witness :
    ti_pyfile_valid ti_pyfile_new_invalid = true ∧
    ti_pyfile_valid demoFile = false ∧
    ti_pyfile_new_invalid = ti_pyfile_new_invalid :=
  ⟨(c10_valid_iff_zero_sentinel.1 ti_pyfile_new_invalid).mpr rfl,
    c10_valid_iff_zero_sentinel.2.1 demoFile (by decide),
    c10_valid_iff_zero_sentinel.2.2.2.2 (List.replicate 12 0) Ti_ParseResult.invalidFormat
      ti_pyfile_new_invalid (by decide) (by decide)⟩

end Tipyconv
